import Mathlib

/-!
Verification of the Twitter '95 database API (`backend/database/api.py`).

The file embeds the data model and the request handlers of the API as pure
Lean functions over an explicit database state, and proves the documented
properties of the timeline/posts queries, the profile read, the cascading
user deletion, and the creation endpoints.

The ORM models module (`common/models.py`) is not part of the sources; the
row types, the uniqueness/foreign-key constraints and the autoincrement
identifier sequences are modelled from the specification's data-model
section and marked as such.  Every handler is translated from
`backend/database/api.py` directly.
-/

namespace Twitter95

/-- Modelled from the spec: the User row of the relational schema (the ORM
models module is not under the sources).  Unique identifier, unique
user_name, display name.  Join metadata is omitted: no handler reads it. -/
structure User where
  user_id : Nat
  user_name : String
  display_name : String
  deriving DecidableEq

/-- Modelled from the spec: the Tweet row.  Unique identifier, author_id (a
foreign key to User), body text, and a nullable fake_time holding the
simulated posting time; `none` embeds SQL NULL.  The real creation
timestamp is omitted: no handler filters or orders by it. -/
structure Tweet where
  tweet_id : Nat
  author_id : Nat
  text : String
  fake_time : Option Nat
  deriving DecidableEq

/-- Modelled from the spec: the Bio row, belonging to exactly one User and
optional.  `content = none` also serves for the placeholder bio record
keyed only by user id that the profile read fabricates. -/
structure Bio where
  user_id : Nat
  content : Option String
  deriving DecidableEq

/-- Modelled from the spec: one row of the followers_association table, a
directed (follower_id, followed_id) pair of foreign keys to User. -/
structure FollowEdge where
  follower_id : Nat
  followed_id : Nat
  deriving DecidableEq

/-- Modelled from the spec: the database state — the three tables plus the
association table, and the autoincrement sequences that generate User and
Tweet identifiers. -/
structure DB where
  users : List User
  tweets : List Tweet
  bios : List Bio
  followers : List FollowEdge
  next_user_id : Nat
  next_tweet_id : Nat
  deriving DecidableEq

/-- Outcome of one request handler: a normal response body, a raised
HTTPException carrying a status code and detail message (which the
framework maps to an HTTP response with that status), or an unhandled
exception surfaced to the caller as a server error. -/
inductive ApiResult (α : Type) where
  | ok : α → ApiResult α
  | raised : Nat → String → ApiResult α
  | error : ApiResult α
  deriving DecidableEq

/-- Embeds `select(User).filter_by(user_id=...)` followed by
`scalar_one_or_none()`; user_id is the primary key, so at most one row
matches and `find?` returns it. -/
def findUser (db : DB) (uid : Nat) : Option User :=
  db.users.find? (fun u => u.user_id == uid)

/-- Embeds the `user.bio` relationship load: the Bio row belonging to the
given user, if any. -/
def findBio (db : DB) (uid : Nat) : Option Bio :=
  db.bios.find? (fun b => b.user_id == uid)

/-- Embeds a primary-key lookup of a Tweet row in the store. -/
def findTweet (db : DB) (tid : Nat) : Option Tweet :=
  db.tweets.find? (fun t => t.tweet_id == tid)

/-- Embeds the followed-users subquery of read_timeline (api.py lines
96-98): `select(followers_association.c.followed_id).where(follower_id ==
user_id)`. -/
def followedUsers (db : DB) (uid : Nat) : List Nat :=
  (db.followers.filter (fun e => e.follower_id == uid)).map (fun e => e.followed_id)

/-- Embeds the shared WHERE clause of read_timeline and read_posts (api.py
lines 104-111 and 131-137): `Tweet.fake_time <= fake_time OR
Tweet.fake_time IS NULL`.  A NULL fake_time passes for every cutoff; a
non-NULL one passes exactly when it is at most the cutoff. -/
def fakeTimeVisible (cutoff : Nat) (t : Tweet) : Bool :=
  match t.fake_time with
  | some ft => ft ≤ cutoff
  | none => true

/-- Embeds the PostgreSQL order on the nullable fake_time column: NULL sorts
as the largest value (NULLS LAST under ASC, NULLS FIRST under DESC, the
defaults). -/
def ftLe : Option Nat → Option Nat → Bool
  | none, none => true
  | none, some _ => false
  | some _, none => true
  | some a, some b => a ≤ b

/-- Embeds `ORDER BY fake_time ASC, tweet_id ASC`: the lexicographic order
on (fake_time, tweet_id); ties on fake_time are broken by tweet_id. -/
def tweetLeAsc (t1 t2 : Tweet) : Bool :=
  if t1.fake_time = t2.fake_time then t1.tweet_id ≤ t2.tweet_id
  else ftLe t1.fake_time t2.fake_time

/-- Embeds `ORDER BY fake_time DESC, tweet_id DESC`: the reverse of the
ascending lexicographic order. -/
def tweetLeDesc (t1 t2 : Tweet) : Bool :=
  tweetLeAsc t2 t1

/-- Order relation chosen by the `ascending` query parameter, embedding
`sort = asc if ascending else desc` (api.py lines 94, 127, 172). -/
def sortRel (ascending : Bool) (t1 t2 : Tweet) : Prop :=
  (if ascending then tweetLeAsc t1 t2 else tweetLeDesc t1 t2) = true

instance sortRelDecidable (b : Bool) : DecidableRel (sortRel b) := by
  intro t1 t2
  unfold sortRel
  infer_instance

/-- Embeds the candidate set of GET /timeline/ before ordering and limiting:
tweets whose author_id is IN the followed-users subquery and which pass the
fake-time clause (api.py lines 101-111). -/
def timelineCandidates (db : DB) (fake_time : Nat) (user_id : Nat) : List Tweet :=
  db.tweets.filter
    (fun t => (followedUsers db user_id).contains t.author_id && fakeTimeVisible fake_time t)

/-- Embeds GET /timeline/ (read_timeline, api.py lines 89-120): the candidate
set ordered by the chosen (fake_time, tweet_id) direction and truncated by
LIMIT.  The handler returns a plain list: it has no raise path and performs
no existence check on user_id. -/
def read_timeline (db : DB) (fake_time : Nat) (user_id : Nat) (limit : Nat)
    (ascending : Bool) : List Tweet :=
  (List.insertionSort (sortRel ascending) (timelineCandidates db fake_time user_id)).take limit

/-- Embeds the candidate set of GET /posts/ before ordering and limiting:
tweets passing the fake-time clause whose author_id equals the given user
(api.py lines 130-139). -/
def postsCandidates (db : DB) (fake_time : Nat) (user_id : Nat) : List Tweet :=
  db.tweets.filter (fun t => fakeTimeVisible fake_time t && t.author_id == user_id)

/-- Embeds GET /posts/ (read_posts, api.py lines 122-147): same fake-time
filtering and ordering as the timeline, restricted to one author. -/
def read_posts (db : DB) (fake_time : Nat) (user_id : Nat) (limit : Nat)
    (ascending : Bool) : List Tweet :=
  (List.insertionSort (sortRel ascending) (postsCandidates db fake_time user_id)).take limit

/-- Embeds GET /tweets/ (read_tweets, api.py lines 169-182): every tweet,
ordered by the chosen (fake_time, tweet_id) direction, truncated by LIMIT. -/
def read_tweets (db : DB) (limit : Nat) (ascending : Bool) : List Tweet :=
  (List.insertionSort (sortRel ascending) db.tweets).take limit

/-- Response shape of GET /profile/: the user and their bio. -/
structure ProfileRead where
  user : User
  bio : Bio
  deriving DecidableEq

/-- Embeds GET /profile/ (read_profile, api.py lines 149-167).  When the user
is absent the code executes `return FastAPI.HTTPException(status_code=404,
detail="User not found")` (line 158): the attribute lookup on the FastAPI
class fails at runtime, and the exception object would in any case be
returned rather than raised, so the request surfaces as an unhandled server
error — `ApiResult.error` — not as a raised 404.  When the user exists but
has no bio, the handler returns the user with a placeholder bio keyed only
by the user id. -/
def read_profile (db : DB) (user_id : Nat) : ApiResult ProfileRead :=
  match findUser db user_id with
  | none => ApiResult.error
  | some user =>
    match findBio db user.user_id with
    | none => ApiResult.ok { user := user, bio := { user_id := user_id, content := none } }
    | some bio => ApiResult.ok { user := user, bio := bio }

/-- Embeds GET /users/{user_id}/ (read_user, api.py lines 214-226): fetch by
primary key, raising HTTPException 404 with a descriptive message when
absent. -/
def read_user (db : DB) (user_id : Nat) : ApiResult User :=
  match findUser db user_id with
  | none => ApiResult.raised 404 ("User " ++ toString user_id ++ " not found")
  | some user => ApiResult.ok user

/-- Embeds DELETE /users/{user_id}/ (delete_user, api.py lines 228-264).  The
existence check comes first: on an absent user the handler raises
HTTPException 404 before any DELETE statement, leaving the state untouched.
Otherwise the four DELETE statements (tweets authored by the user, edges
where the user is follower, edges where the user is followed, the user row)
run inside the session's single transaction and the one `commit` at the end
publishes them together, so the committed state applies all four. -/
def delete_user (db : DB) (user_id : Nat) : ApiResult Unit × DB :=
  match findUser db user_id with
  | none => (ApiResult.raised 404 ("User " ++ toString user_id ++ " not found"), db)
  | some _ =>
    (ApiResult.ok (),
      { db with
        tweets := db.tweets.filter (fun t => !(t.author_id == user_id)),
        followers :=
          (db.followers.filter (fun e => !(e.follower_id == user_id))).filter
            (fun e => !(e.followed_id == user_id)),
        users := db.users.filter (fun u => !(u.user_id == user_id)) })

/-- Creation payload of POST /users/: the caller-supplied fields; the
identifier is generated by the store. -/
structure UserCreate where
  user_name : String
  display_name : String

/-- Embeds POST /users/ (create_user, api.py lines 184-196) together with the
schema's unique constraint on user_name (modelled from the spec): a
duplicate name makes the INSERT fail, and such constraint violations
propagate as unhandled server errors.  On success the row is persisted and
`refresh` populates the generated identifier, modelled as the next value of
the autoincrement sequence. -/
def create_user (db : DB) (payload : UserCreate) : ApiResult User × DB :=
  if db.users.any (fun u => u.user_name == payload.user_name) then
    (ApiResult.error, db)
  else
    let user : User :=
      { user_id := db.next_user_id, user_name := payload.user_name,
        display_name := payload.display_name }
    (ApiResult.ok user,
      { db with users := db.users ++ [user], next_user_id := db.next_user_id + 1 })

/-- Creation payload of POST /tweet/. -/
structure TweetCreate where
  author_id : Nat
  text : String
  fake_time : Option Nat

/-- Embeds POST /tweet/ (create_tweet, api.py lines 305-315) together with
the schema's foreign-key constraint on author_id (modelled from the spec):
an absent author makes the INSERT fail, propagating as an unhandled server
error.  On success the row is persisted and `refresh` populates the
generated identifier. -/
def create_tweet (db : DB) (payload : TweetCreate) : ApiResult Tweet × DB :=
  if db.users.any (fun u => u.user_id == payload.author_id) then
    let t : Tweet :=
      { tweet_id := db.next_tweet_id, author_id := payload.author_id,
        text := payload.text, fake_time := payload.fake_time }
    (ApiResult.ok t,
      { db with tweets := db.tweets ++ [t], next_tweet_id := db.next_tweet_id + 1 })
  else (ApiResult.error, db)

/-- Embeds the candidate set of GET /users/{user_id}/tweets/: every tweet
authored by the user, with no fake-time condition (api.py lines 279-281). -/
def userTweets (db : DB) (user_id : Nat) : List Tweet :=
  db.tweets.filter (fun t => t.author_id == user_id)

/-- Embeds GET /users/{user_id}/tweets/ (read_user_tweets, api.py lines
266-289): HTTPException 404 when the user is absent; otherwise the user's
tweets in fixed descending (fake_time, tweet_id) order — the route exposes
no `ascending` parameter — truncated by LIMIT. -/
def read_user_tweets (db : DB) (user_id : Nat) (limit : Nat) : ApiResult (List Tweet) :=
  match findUser db user_id with
  | none => ApiResult.raised 404 ("User " ++ toString user_id ++ " not found")
  | some _ =>
    ApiResult.ok ((List.insertionSort (sortRel false) (userTweets db user_id)).take limit)

/-- Modelled from the spec: the foreign-key invariant on the association
table — both endpoints of every follower edge reference existing users. -/
def edgesReferenceUsers (db : DB) : Prop :=
  ∀ e ∈ db.followers,
    (∃ u ∈ db.users, u.user_id = e.follower_id) ∧ (∃ u ∈ db.users, u.user_id = e.followed_id)

/-- Modelled from the spec: freshness of the autoincrement sequences — every
stored row's identifier is below the sequence's next value. -/
def idsBelowNext (db : DB) : Prop :=
  (∀ u ∈ db.users, u.user_id < db.next_user_id) ∧
    (∀ t ∈ db.tweets, t.tweet_id < db.next_tweet_id)

theorem ftLe_total (a b : Option Nat) : ftLe a b = true ∨ ftLe b a = true := by
  cases a <;> cases b <;> simp [ftLe] <;> omega

theorem ftLe_trans {a b c : Option Nat} (h1 : ftLe a b = true) (h2 : ftLe b c = true) :
    ftLe a c = true := by
  cases a <;> cases b <;> cases c <;> simp_all [ftLe] <;> omega

theorem ftLe_antisymm {a b : Option Nat} (h1 : ftLe a b = true) (h2 : ftLe b a = true) :
    a = b := by
  cases a <;> cases b <;> simp_all [ftLe] <;> omega

theorem tweetLeAsc_total (t1 t2 : Tweet) :
    tweetLeAsc t1 t2 = true ∨ tweetLeAsc t2 t1 = true := by
  unfold tweetLeAsc
  by_cases h : t1.fake_time = t2.fake_time
  · rw [if_pos h, if_pos h.symm]
    simp only [decide_eq_true_eq]
    omega
  · rw [if_neg h, if_neg (fun hh => h hh.symm)]
    exact ftLe_total _ _

theorem tweetLeAsc_trans {t1 t2 t3 : Tweet} (h1 : tweetLeAsc t1 t2 = true)
    (h2 : tweetLeAsc t2 t3 = true) : tweetLeAsc t1 t3 = true := by
  unfold tweetLeAsc at h1 h2 ⊢
  by_cases e12 : t1.fake_time = t2.fake_time <;> by_cases e23 : t2.fake_time = t3.fake_time
  · rw [if_pos e12] at h1
    rw [if_pos e23] at h2
    rw [if_pos (e12.trans e23)]
    simp only [decide_eq_true_eq] at h1 h2 ⊢
    omega
  · rw [if_pos e12] at h1
    rw [if_neg e23] at h2
    rw [if_neg (fun h => e23 (e12 ▸ h)), e12]
    exact h2
  · rw [if_neg e12] at h1
    rw [if_pos e23] at h2
    rw [if_neg (fun h => e12 (h.trans e23.symm)), ← e23]
    exact h1
  · rw [if_neg e12] at h1
    rw [if_neg e23] at h2
    by_cases e13 : t1.fake_time = t3.fake_time
    · exact absurd (ftLe_antisymm h1 (e13 ▸ h2)) e12
    · rw [if_neg e13]
      exact ftLe_trans h1 h2

instance sortRelTotal (b : Bool) : IsTotal Tweet (sortRel b) := by
  constructor
  intro t1 t2
  cases b <;> simp only [sortRel, Bool.false_eq_true, if_false, if_true, tweetLeDesc]
  · exact (tweetLeAsc_total t2 t1)
  · exact tweetLeAsc_total t1 t2

instance sortRelTrans (b : Bool) : IsTrans Tweet (sortRel b) := by
  constructor
  intro t1 t2 t3 h1 h2
  cases b <;> simp only [sortRel, Bool.false_eq_true, if_false, if_true, tweetLeDesc] at h1 h2 ⊢
  · exact tweetLeAsc_trans h2 h1
  · exact tweetLeAsc_trans h1 h2

theorem sorted_take_insertionSort (b : Bool) (l : List Tweet) (n : Nat) :
    List.Sorted (sortRel b) ((List.insertionSort (sortRel b) l).take n) :=
  List.Pairwise.sublist (List.take_sublist n _) (List.sorted_insertionSort (sortRel b) l)

theorem mem_take_insertionSort {b : Bool} {l : List Tweet} {n : Nat} {t : Tweet}
    (h : t ∈ (List.insertionSort (sortRel b) l).take n) : t ∈ l :=
  (List.mem_insertionSort (sortRel b)).mp (List.mem_of_mem_take h)

/-- Concrete empty database used to evaluate the handlers on absent ids. -/
def emptyDB : DB :=
  { users := [], tweets := [], bios := [], followers := [],
    next_user_id := 1, next_tweet_id := 1 }

/-- Concrete sample user. -/
def userA : User := { user_id := 1, user_name := "alice", display_name := "Alice" }

/-- Concrete sample user. -/
def userB : User := { user_id := 2, user_name := "bob", display_name := "Bob" }

/-- Concrete sample tweet authored by user 2 at fake time 5. -/
def tweetB : Tweet := { tweet_id := 1, author_id := 2, text := "hello", fake_time := some 5 }

/-- Concrete sample database: users 1 and 2, user 1 follows user 2, and user 2
has authored one tweet. -/
def sampleDB : DB :=
  { users := [userA, userB], tweets := [tweetB], bios := [],
    followers := [{ follower_id := 1, followed_id := 2 }],
    next_user_id := 3, next_tweet_id := 2 }

/-- C1: the claim holds of the spec but the code violates it.  On a user_id
with no matching User row, GET /profile/{user_id}/ does not produce an HTTP
404: line 158 of api.py returns `FastAPI.HTTPException(status_code=404, ...)`
— an attribute that does not exist on the FastAPI class, and in any case
returned instead of raised — so the request surfaces as an unhandled server
error.  Evaluated at the concrete failing input: an empty database and
user_id 1. -/
theorem c1_profile_absent_user_is_server_error :
    read_profile emptyDB 1 = ApiResult.error ∧
      ∀ d : String, read_profile emptyDB 1 ≠ ApiResult.raised 404 d := by
  refine ⟨rfl, ?_⟩
  intro d h
  rw [show read_profile emptyDB 1 = ApiResult.error from rfl] at h
  exact ApiResult.noConfusion h

/-- C2: DELETE /users/{user_id}/ is all-or-nothing.  Either the user is
absent — a 404 is raised and the returned state is exactly the input state —
or the handler succeeds and the committed state simultaneously reflects all
four deletions: no tweet authored by the user, no follower edge touching the
user on either side, no such user row, with every other tweet, edge and user
retained and the bios table untouched.  No intermediate state is returned. -/
theorem c2_delete_user_atomic (db : DB) (user_id : Nat) :
    (∃ d, delete_user db user_id = (ApiResult.raised 404 d, db)) ∨
      ((delete_user db user_id).1 = ApiResult.ok () ∧
        (∀ t, t ∈ (delete_user db user_id).2.tweets ↔
          t ∈ db.tweets ∧ t.author_id ≠ user_id) ∧
        (∀ e, e ∈ (delete_user db user_id).2.followers ↔
          e ∈ db.followers ∧ e.follower_id ≠ user_id ∧ e.followed_id ≠ user_id) ∧
        (∀ u, u ∈ (delete_user db user_id).2.users ↔
          u ∈ db.users ∧ u.user_id ≠ user_id) ∧
        (delete_user db user_id).2.bios = db.bios) := by
  cases h : findUser db user_id with
  | none =>
    exact Or.inl ⟨"User " ++ toString user_id ++ " not found", by simp [delete_user, h]⟩
  | some usr =>
    right
    refine ⟨by simp [delete_user, h], ?_, ?_, ?_, by simp [delete_user, h]⟩
    · intro t
      simp [delete_user, h, List.mem_filter]
    · intro e
      simp only [delete_user, h, List.mem_filter, Bool.and_eq_true, Bool.not_eq_true',
        beq_eq_false_iff_ne, ne_eq]
      tauto
    · intro u
      simp [delete_user, h, List.mem_filter]

/-- C10: deleting an absent user raises HTTPException 404 with the
descriptive message and returns the database completely unchanged: the
existence check precedes all four DELETE statements. -/
theorem c10_delete_absent_user_unchanged (db : DB) (user_id : Nat)
    (h : findUser db user_id = none) :
    delete_user db user_id =
      (ApiResult.raised 404 ("User " ++ toString user_id ++ " not found"), db) := by
  simp [delete_user, h]

/-- C10 witness: evaluated on the empty database at user_id 1. -/
theorem c10_delete_absent_user_unchanged_witness :
    findUser emptyDB 1 = none ∧
      delete_user emptyDB 1 =
        (ApiResult.raised 404 ("User " ++ toString 1 ++ " not found"), emptyDB) :=
  ⟨rfl, c10_delete_absent_user_unchanged emptyDB 1 rfl⟩

/-- C3: the cleanup parts of the claim hold — after the successful deletion
of user 2 no tweet authored by 2 and no follower edge touching 2 remains, no
User row with id 2 is left, and a subsequent posts query for 2 returns the
empty list — but the final part fails on the code: the subsequent profile
query does not signal not-found, because read_profile returns
`FastAPI.HTTPException` instead of raising it (api.py line 158), so the
profile query surfaces as an unhandled server error rather than a 404. -/
theorem c3_delete_cleanup_but_profile_errors :
    (delete_user sampleDB 2).1 = ApiResult.ok () ∧
      (∀ t ∈ (delete_user sampleDB 2).2.tweets, t.author_id ≠ 2) ∧
      (∀ e ∈ (delete_user sampleDB 2).2.followers,
        e.follower_id ≠ 2 ∧ e.followed_id ≠ 2) ∧
      findUser (delete_user sampleDB 2).2 2 = none ∧
      read_posts (delete_user sampleDB 2).2 100 2 10 false = [] ∧
      read_profile (delete_user sampleDB 2).2 2 = ApiResult.error ∧
      ∀ d : String, read_profile (delete_user sampleDB 2).2 2 ≠ ApiResult.raised 404 d := by
  refine ⟨by decide, by decide, by decide, by decide, by decide, by decide, ?_⟩
  intro d h
  have he : read_profile (delete_user sampleDB 2).2 2 = ApiResult.error := by decide
  rw [he] at h
  exact ApiResult.noConfusion h

/-- C4: membership in the candidate sets of GET /timeline/ and GET /posts/
before ordering and truncation.  A tweet with NULL fake_time passes the time
clause for every cutoff, so it is a candidate whenever the non-time
conditions hold; a tweet with fake_time = ft is a candidate exactly when
ft ≤ cutoff and the non-time conditions hold. -/
theorem c4_null_fake_time_always_visible (db : DB) (cutoff user_id : Nat) (t : Tweet)
    (ht : t ∈ db.tweets) :
    (t.fake_time = none →
      (t.author_id ∈ followedUsers db user_id →
        t ∈ timelineCandidates db cutoff user_id) ∧
      (t.author_id = user_id → t ∈ postsCandidates db cutoff user_id)) ∧
    (∀ ft, t.fake_time = some ft →
      (t ∈ timelineCandidates db cutoff user_id ↔
        t.author_id ∈ followedUsers db user_id ∧ ft ≤ cutoff) ∧
      (t ∈ postsCandidates db cutoff user_id ↔ t.author_id = user_id ∧ ft ≤ cutoff)) := by
  constructor
  · intro hnull
    constructor
    · intro hf
      simp [timelineCandidates, List.mem_filter, fakeTimeVisible, hnull, ht,
        List.elem_iff, hf]
    · intro hf
      simp [postsCandidates, List.mem_filter, fakeTimeVisible, hnull, ht, hf]
  · intro ft hft
    constructor
    · simp [timelineCandidates, List.mem_filter, fakeTimeVisible, hft, ht, List.elem_iff]
    · simp only [postsCandidates, List.mem_filter, fakeTimeVisible, hft, ht,
        Bool.and_eq_true, beq_iff_eq, decide_eq_true_eq, true_and]
      tauto

/-- C4 witness: the sample tweet with fake_time 5 is in the timeline
candidate set for cutoff 5 exactly when its author is followed. -/
theorem c4_null_fake_time_always_visible_witness :
    tweetB ∈ sampleDB.tweets ∧
      (tweetB ∈ timelineCandidates sampleDB 5 1 ↔
        tweetB.author_id ∈ followedUsers sampleDB 1 ∧ 5 ≤ 5) :=
  ⟨by decide,
    ((c4_null_fake_time_always_visible sampleDB 5 1 tweetB (by decide)).2 5 rfl).1⟩

/-- C5: every tweet returned by GET /timeline/ for user_id is authored by a
followed user — some follower edge has the queried user as follower and the
tweet's author as followed.  A tweet by an unfollowed author never appears. -/
theorem c5_timeline_only_followed (db : DB) (fake_time user_id limit : Nat)
    (ascending : Bool) (t : Tweet)
    (ht : t ∈ read_timeline db fake_time user_id limit ascending) :
    ∃ e ∈ db.followers, e.follower_id = user_id ∧ e.followed_id = t.author_id := by
  have h1 : t ∈ timelineCandidates db fake_time user_id := mem_take_insertionSort ht
  have h2 := (List.mem_filter.mp h1).2
  simp only [Bool.and_eq_true] at h2
  have h3 : t.author_id ∈ followedUsers db user_id := List.elem_iff.mp h2.1
  simp only [followedUsers, List.mem_map, List.mem_filter] at h3
  obtain ⟨e, ⟨hmem, hfl⟩, hfd⟩ := h3
  exact ⟨e, hmem, by simpa using hfl, hfd⟩

/-- C5 witness: in the sample database, user 1 follows user 2, and user 2's
tweet appears in user 1's timeline with the follower edge as evidence. -/
theorem c5_timeline_only_followed_witness :
    tweetB ∈ read_timeline sampleDB 5 1 10 false ∧
      ∃ e ∈ sampleDB.followers, e.follower_id = 1 ∧ e.followed_id = tweetB.author_id :=
  ⟨by decide, c5_timeline_only_followed sampleDB 5 1 10 false tweetB (by decide)⟩

/-- C7: GET /timeline/ never errors on a friendless or unknown user.  If no
follower edge has the queried user as follower, the result is the empty
list; in particular, under the foreign-key invariant, a user_id with no
matching User row has no follower edges, so the timeline of an unknown user
is the empty list — the handler performs no existence check and has no raise
path. -/
theorem c7_timeline_empty_for_nonfollower (db : DB) (fake_time user_id limit : Nat)
    (ascending : Bool) :
    ((∀ e ∈ db.followers, e.follower_id ≠ user_id) →
      read_timeline db fake_time user_id limit ascending = []) ∧
    (edgesReferenceUsers db → findUser db user_id = none →
      read_timeline db fake_time user_id limit ascending = []) := by
  have key : (∀ e ∈ db.followers, e.follower_id ≠ user_id) →
      read_timeline db fake_time user_id limit ascending = [] := by
    intro hnf
    have hfu : followedUsers db user_id = [] := by
      simp only [followedUsers, List.map_eq_nil_iff, List.filter_eq_nil_iff]
      intro e he
      simpa using hnf e he
    have hc : timelineCandidates db fake_time user_id = [] := by
      simp [timelineCandidates, hfu, List.filter_eq_nil_iff]
    simp [read_timeline, hc]
  refine ⟨key, ?_⟩
  intro hfk hnone
  apply key
  intro e he hfl
  obtain ⟨⟨u, hu, hid⟩, _⟩ := hfk e he
  have hne := List.find?_eq_none.mp hnone u hu
  exact hne (by simp [hid, hfl])

/-- C7 witness: user 99 does not exist in the sample database and follows
nobody; the timeline query for 99 returns the empty list. -/
theorem c7_timeline_empty_for_nonfollower_witness :
    (∀ e ∈ sampleDB.followers, e.follower_id ≠ 99) ∧
      read_timeline sampleDB 5 99 10 false = [] :=
  ⟨by decide, (c7_timeline_empty_for_nonfollower sampleDB 5 99 10 false).1 (by decide)⟩

/-- C6: ordering and truncation of the three tweet-listing queries.  With
ascending=false the result of GET /timeline/, GET /posts/ and GET /tweets/
is sorted by the descending lexicographic (fake_time, tweet_id) order, with
ascending=true by the ascending one; on a fake_time tie the order compares
tweet_id; every result holds at most `limit` tweets. -/
theorem c6_ordering_and_limit (db : DB) (fake_time user_id limit : Nat) :
    (List.Sorted (sortRel false) (read_timeline db fake_time user_id limit false) ∧
      List.Sorted (sortRel true) (read_timeline db fake_time user_id limit true) ∧
      ∀ b : Bool, (read_timeline db fake_time user_id limit b).length ≤ limit) ∧
    (List.Sorted (sortRel false) (read_posts db fake_time user_id limit false) ∧
      List.Sorted (sortRel true) (read_posts db fake_time user_id limit true) ∧
      ∀ b : Bool, (read_posts db fake_time user_id limit b).length ≤ limit) ∧
    (List.Sorted (sortRel false) (read_tweets db limit false) ∧
      List.Sorted (sortRel true) (read_tweets db limit true) ∧
      ∀ b : Bool, (read_tweets db limit b).length ≤ limit) ∧
    (∀ t1 t2 : Tweet, t1.fake_time = t2.fake_time →
      (sortRel true t1 t2 ↔ t1.tweet_id ≤ t2.tweet_id) ∧
      (sortRel false t1 t2 ↔ t2.tweet_id ≤ t1.tweet_id)) := by
  refine ⟨⟨?_, ?_, ?_⟩, ⟨?_, ?_, ?_⟩, ⟨?_, ?_, ?_⟩, ?_⟩
  · exact sorted_take_insertionSort false _ limit
  · exact sorted_take_insertionSort true _ limit
  · intro b
    exact List.length_take_le limit _
  · exact sorted_take_insertionSort false _ limit
  · exact sorted_take_insertionSort true _ limit
  · intro b
    exact List.length_take_le limit _
  · exact sorted_take_insertionSort false _ limit
  · exact sorted_take_insertionSort true _ limit
  · intro b
    exact List.length_take_le limit _
  · intro t1 t2 h
    constructor
    · simp [sortRel, tweetLeAsc, h]
    · simp [sortRel, tweetLeDesc, tweetLeAsc, h]

/-- C6 witness: a concrete sorted timeline, and a concrete tie-break
instance of the order relation. -/
theorem c6_ordering_and_limit_witness :
    List.Sorted (sortRel false) (read_timeline sampleDB 5 1 10 false) ∧
      (tweetB.fake_time = tweetB.fake_time ∧
        (sortRel false tweetB tweetB ↔ tweetB.tweet_id ≤ tweetB.tweet_id)) :=
  ⟨(c6_ordering_and_limit sampleDB 5 1 10).1.1,
    rfl, ((c6_ordering_and_limit sampleDB 5 1 10).2.2.2 tweetB tweetB rfl).2⟩

/-- C9: GET /users/{user_id}/tweets/ for an existing user applies no
fake-time condition: its candidate set is every stored tweet authored by
the user whatever its fake_time (NULL or arbitrarily far in the future),
and the result is that set in the fixed descending (fake_time, tweet_id)
order — the route exposes no ascending parameter — truncated to limit. -/
theorem c9_user_tweets_unfiltered (db : DB) (user_id limit : Nat)
    (h : ∃ u ∈ db.users, u.user_id = user_id) :
    read_user_tweets db user_id limit =
      ApiResult.ok
        ((List.insertionSort (sortRel false) (userTweets db user_id)).take limit) ∧
    (∀ t, t ∈ userTweets db user_id ↔ t ∈ db.tweets ∧ t.author_id = user_id) ∧
    List.Sorted (sortRel false)
      ((List.insertionSort (sortRel false) (userTweets db user_id)).take limit) ∧
    ((List.insertionSort (sortRel false) (userTweets db user_id)).take limit).length ≤
      limit := by
  refine ⟨?_, ?_, sorted_take_insertionSort false _ limit, List.length_take_le limit _⟩
  · cases hf : findUser db user_id with
    | none =>
      obtain ⟨u, hu, hid⟩ := h
      exact absurd (by simp [hid]) (List.find?_eq_none.mp hf u hu)
    | some usr => simp [read_user_tweets, hf]
  · intro t
    simp [userTweets, List.mem_filter]

/-- C9 witness: evaluated for user 2 of the sample database. -/
theorem c9_user_tweets_unfiltered_witness :
    (∃ u ∈ sampleDB.users, u.user_id = 2) ∧
      read_user_tweets sampleDB 2 10 =
        ApiResult.ok ((List.insertionSort (sortRel false) (userTweets sampleDB 2)).take 10) :=
  ⟨by decide, (c9_user_tweets_unfiltered sampleDB 2 10 (by decide)).1⟩

theorem find?_user_append {l : List User} {nu : User}
    (h : ∀ u ∈ l, u.user_id ≠ nu.user_id) :
    (l ++ [nu]).find? (fun u => u.user_id == nu.user_id) = some nu := by
  rw [List.find?_append]
  have h1 : l.find? (fun u => u.user_id == nu.user_id) = none := by
    rw [List.find?_eq_none]
    intro u hu
    simpa using h u hu
  rw [h1]
  simp

theorem find?_tweet_append {l : List Tweet} {nt : Tweet}
    (h : ∀ t ∈ l, t.tweet_id ≠ nt.tweet_id) :
    (l ++ [nt]).find? (fun t => t.tweet_id == nt.tweet_id) = some nt := by
  rw [List.find?_append]
  have h1 : l.find? (fun t => t.tweet_id == nt.tweet_id) = none := by
    rw [List.find?_eq_none]
    intro t ht
    simpa using h t ht
  rw [h1]
  simp

/-- C8: create-then-fetch round trip for POST /users/ and POST /tweet/.
Under fresh autoincrement sequences, a user payload whose user_name is not
yet taken, and a tweet payload whose author exists, each creation persists a
row carrying the generated identifier, returns that row, and fetching by
that identifier afterwards yields an object with the same identifier. -/
theorem c8_create_then_fetch (db : DB) (up : UserCreate) (tp : TweetCreate)
    (hids : idsBelowNext db)
    (hname : ∀ u ∈ db.users, u.user_name ≠ up.user_name)
    (hauthor : ∃ u ∈ db.users, u.user_id = tp.author_id) :
    (∃ u, (create_user db up).1 = ApiResult.ok u ∧ u.user_id = db.next_user_id ∧
      u ∈ (create_user db up).2.users ∧
      read_user (create_user db up).2 u.user_id = ApiResult.ok u) ∧
    (∃ t, (create_tweet db tp).1 = ApiResult.ok t ∧ t.tweet_id = db.next_tweet_id ∧
      t ∈ (create_tweet db tp).2.tweets ∧
      findTweet (create_tweet db tp).2 t.tweet_id = some t) := by
  have hcond : db.users.any (fun u => u.user_name == up.user_name) = false := by
    rw [List.any_eq_false]
    intro u hu
    simpa using hname u hu
  have hcond2 : db.users.any (fun u => u.user_id == tp.author_id) = true := by
    rw [List.any_eq_true]
    obtain ⟨u, hu, he⟩ := hauthor
    exact ⟨u, hu, by simpa using he⟩
  constructor
  · refine ⟨User.mk db.next_user_id up.user_name up.display_name, ?_, rfl, ?_, ?_⟩
    · simp [create_user, hcond]
    · simp [create_user, hcond]
    · have hfresh : ∀ u ∈ db.users,
          u.user_id ≠ (User.mk db.next_user_id up.user_name up.display_name).user_id := by
        intro u hu
        have := hids.1 u hu
        simp only
        omega
      have hfind := find?_user_append hfresh
      simp [create_user, hcond, read_user, findUser, hfind]
  · refine ⟨Tweet.mk db.next_tweet_id tp.author_id tp.text tp.fake_time, ?_, rfl, ?_, ?_⟩
    · simp [create_tweet, hcond2]
    · simp [create_tweet, hcond2]
    · have hfresh : ∀ t ∈ db.tweets,
          t.tweet_id ≠ (Tweet.mk db.next_tweet_id tp.author_id tp.text tp.fake_time).tweet_id := by
        intro t ht
        have := hids.2 t ht
        simp only
        omega
      have hfind := find?_tweet_append hfresh
      simp [create_tweet, hcond2, findTweet, hfind]

/-- C8 witness: creating user "carol" and a tweet by user 1 in the sample
database round-trips through a fetch by the generated identifier. -/
theorem c8_create_then_fetch_witness :
    idsBelowNext sampleDB ∧
      (∀ u ∈ sampleDB.users, u.user_name ≠ "carol") ∧
      (∃ u ∈ sampleDB.users, u.user_id = 1) ∧
      ((∃ u, (create_user sampleDB (UserCreate.mk "carol" "Carol")).1 =
            ApiResult.ok u ∧
          u.user_id = sampleDB.next_user_id ∧
          u ∈ (create_user sampleDB (UserCreate.mk "carol" "Carol")).2.users ∧
          read_user (create_user sampleDB (UserCreate.mk "carol" "Carol")).2 u.user_id =
            ApiResult.ok u) ∧
        ∃ t, (create_tweet sampleDB (TweetCreate.mk 1 "hi" none)).1 = ApiResult.ok t ∧
          t.tweet_id = sampleDB.next_tweet_id ∧
          t ∈ (create_tweet sampleDB (TweetCreate.mk 1 "hi" none)).2.tweets ∧
          findTweet (create_tweet sampleDB (TweetCreate.mk 1 "hi" none)).2 t.tweet_id =
            some t) :=
  ⟨⟨by decide, by decide⟩, by decide, by decide,
    c8_create_then_fetch sampleDB (UserCreate.mk "carol" "Carol") (TweetCreate.mk 1 "hi" none)
      ⟨by decide, by decide⟩ (by decide) (by decide)⟩

end Twitter95
